import Mathlib

/-!
Shallow embedding of the protocol engine of `src/pyScienceMode/devices/rehastim_generic.py`
(class `RehastimGeneric`): byte-level framing, telemetry decoding, command/acknowledgement
correlation, the watchdog-piggyback send path, and session teardown, together with theorems
settling the specification claims about them.

Packets are modelled as lists of byte values (`List Nat`, each entry `< 256` in practice);
Python integers are `Int`; Python's arbitrary-precision bitwise xor is `Int.xor` (identical
two's-complement semantics).  Python list indexing `packet[i]` is modelled by `List.getD i 0`;
every concrete input used in a theorem is long enough that the default is never consulted.
-/

namespace PySciMode

/-- Protocol constants of `RehastimGeneric` (class attributes in the source). -/
def START_BYTE : Nat := 240

def STOP_BYTE : Nat := 15

def STUFFING_BYTE : Nat := 129

def STUFFING_KEY : Nat := 85

def STUFFED_BYTES : List Nat := [240, 15, 129, 85, 10]

/-- Modelled from the spec: the `Rehastim2Commands` enumeration lives in
`pyScienceMode/enums.py`, which is not among the provided source files.  The spec fixes
Init = 1 (its init/ack example uses ids 1 and 2), the convention ack id = command id + 1 for
handshake exchanges, that the periodic reports (ActualValues, PhaseResult) and
MotomedCommandDone are additional fixed identifiers outside that convention, and the source
itself hardcodes 90 for MotomedError.  The remaining numeric values are chosen arbitrarily
but distinct; no theorem below depends on more than distinctness and these relations. -/
def rehastim2Commands : List (String × Nat) :=
  [("Init", 1), ("InitAck", 2), ("UnknownCommand", 3), ("Watchdog", 4),
   ("GetStimulationMode", 10), ("GetStimulationModeAck", 11),
   ("InitChannelListMode", 30), ("InitChannelListModeAck", 31),
   ("StartChannelListMode", 32), ("StartChannelListModeAck", 33),
   ("StopChannelListMode", 34), ("StopChannelListModeAck", 35),
   ("SinglePulse", 36), ("SinglePulseAck", 37), ("StimulationError", 38),
   ("PhaseResult", 84), ("ActualValues", 85), ("MotomedCommandDone", 86),
   ("MotomedError", 90)]

/-- `Rehastim2Commands(v).name`: look a command name up by numeric value
(raises `ValueError` in Python when absent, hence `Option`). -/
def cmdName (v : Nat) : Option String :=
  (rehastim2Commands.find? (fun p => p.2 = v)).map (fun p => p.1)

/-- `Rehastim2Commands["N"].value`: look a numeric value up by name. -/
def cmdValue (n : String) : Nat :=
  ((rehastim2Commands.find? (fun p => p.1 = n)).map (fun p => p.2)).getD 0

/-- `v` is the value of some `Rehastim2Commands` member
(`packet[6] in [t.value for t in self.Rehastim2Commands]`). -/
def isKnownCmd (v : Nat) : Bool :=
  (rehastim2Commands.map (fun p => p.2)).contains v

/-- A raw packet: the byte sequence as read from the link. -/
abbrev Packet := List Nat

/-- Modelled from the spec: `signed_int` lives in `pyScienceMode/utils.py`, which is not among
the provided source files.  Per the spec the device reports *signed* status codes (e.g. -1, -2,
-3) carried in single bytes, so `signed_int` of a one-byte slice is the two's-complement
reading of that byte. -/
def signedInt (b : Nat) : Int :=
  if b < 128 then (b : Int) else (b : Int) - 256

/-- The command-identifier byte of a packet (`packet[6]`). -/
def cmdId (p : Packet) : Nat := p.getD 6 0

/-- The signed status byte of a packet (`signed_int(packet[7:8])`). -/
def errCode (p : Packet) : Int := signedInt (p.getD 7 0)

/-! ### Telemetry decoding: `_actual_values_ack` (lines 291-325) -/

/-- One decoded actual-values sample: {angle, speed, torque}. -/
structure Sample where
  angle : Int
  speed : Int
  torque : Int
  deriving DecidableEq

/-- The field-decoding part of `_actual_values_ack` (lines 300-317), byte for byte.  Note the
Python operator precedence in the stuffed angle branch: `255 * s + packet[9] ^ KEY` xors the
*whole sum* with the stuffing key, and the stuffed speed/torque branches xor the signed reading
of the byte following the marker. -/
def actualValuesAck (p : Packet) : Sample :=
  let angle : Int :=
    if p.getD 8 0 = 129 then
      Int.xor (255 * signedInt (p.getD 7 0) + (p.getD 9 0 : Int)) (STUFFING_KEY : Int)
    else
      255 * signedInt (p.getD 7 0) + (p.getD 8 0 : Int)
  let count : Nat := if p.getD 8 0 = 129 then 1 else 0
  let speed : Int :=
    if p.getD (10 + count) 0 = 129 then
      Int.xor (signedInt (p.getD (10 + count + 1) 0)) (STUFFING_KEY : Int)
    else
      signedInt (p.getD (10 + count) 0)
  let count := if p.getD (10 + count) 0 = 129 then count + 1 else count
  let torque : Int :=
    if p.getD (12 + count) 0 = 129 then
      Int.xor (signedInt (p.getD (12 + count + 1) 0)) (STUFFING_KEY : Int)
    else
      signedInt (p.getD (12 + count) 0)
  { angle := angle, speed := speed, torque := torque }

/-- The claim's reading of the per-field stuffing rule for actual values ("if the byte at the
field's expected offset equals the stuffing marker the field value is the following byte XOR
0x55, otherwise the raw byte is taken"), stated from the spec's words for comparison with
`actualValuesAck`: for the 16-bit angle the xor applies only to the stuffed low byte. -/
def actualValuesSpecRule (p : Packet) : Sample :=
  let angle : Int :=
    if p.getD 8 0 = 129 then
      255 * signedInt (p.getD 7 0) + Int.xor (p.getD 9 0 : Int) (STUFFING_KEY : Int)
    else
      255 * signedInt (p.getD 7 0) + (p.getD 8 0 : Int)
  let count : Nat := if p.getD 8 0 = 129 then 1 else 0
  let speed : Int :=
    if p.getD (10 + count) 0 = 129 then
      Int.xor (p.getD (10 + count + 1) 0 : Int) (STUFFING_KEY : Int)
    else
      signedInt (p.getD (10 + count) 0)
  let count := if p.getD (10 + count) 0 = 129 then count + 1 else count
  let torque : Int :=
    if p.getD (12 + count) 0 = 129 then
      Int.xor (p.getD (12 + count + 1) 0 : Int) (STUFFING_KEY : Int)
    else
      signedInt (p.getD (12 + count) 0)
  { angle := angle, speed := speed, torque := torque }

/-- The ring-buffer append of `_actual_values_ack` (lines 319-325): `motomed_values` starts
empty (`None`), grows by one column while below `max_motomed_values = 100`, and afterwards
drops its oldest column before appending. -/
def pushSample (buf : List Sample) (s : Sample) : List Sample :=
  if buf.length < 100 then buf ++ [s] else buf.drop 1 ++ [s]

/-! ### Telemetry decoding: `_phase_result_ack` (lines 542-644) -/

/-- One decoded phase-result record: the 11 fields of the source, in order. -/
structure PhaseVec where
  phase_number : Int
  passive_distance : Int
  active_distance : Int
  average_power : Int
  maximum_power : Int
  phase_duration : Int
  active_phase_duration : Int
  phase_work : Int
  success_value : Int
  symmetry : Int
  average_muscle_tone : Int
  deriving DecidableEq

/-- The field-decoding part of `_phase_result_ack` (lines 555-619), byte for byte, with the
running stuffed-byte counter `count`.  As in the source: the stuffed branches of the two-byte
fields xor the whole `255 * msb + following` sum with the key (Python operator precedence), and
the stuffed symmetry branch reads `signed_int(packet[21+count : 21+count+1])` - the marker byte
itself, not the byte following it. -/
def phaseResultAck (p : Packet) : PhaseVec :=
  let phase_number : Int :=
    if p.getD 7 0 = 129 then Int.xor (p.getD 8 0 : Int) 85 else (p.getD 7 0 : Int)
  let count : Nat := if p.getD 7 0 = 129 then 1 else 0
  let passive_distance : Int :=
    if p.getD (9 + count) 0 = 129 then
      Int.xor (255 * (p.getD (8 + count) 0 : Int) + (p.getD (9 + count + 1) 0 : Int)) 85
    else 255 * (p.getD (8 + count) 0 : Int) + (p.getD (9 + count) 0 : Int)
  let count := if p.getD (9 + count) 0 = 129 then count + 1 else count
  let active_distance : Int :=
    if p.getD (11 + count) 0 = 129 then
      Int.xor (255 * (p.getD (10 + count) 0 : Int) + (p.getD (11 + count + 1) 0 : Int)) 85
    else 255 * (p.getD (10 + count) 0 : Int) + (p.getD (10 + count + 1) 0 : Int)
  let count := if p.getD (11 + count) 0 = 129 then count + 1 else count
  let average_power : Int :=
    if p.getD (12 + count) 0 = 129 then Int.xor (p.getD (12 + count + 1) 0 : Int) 85
    else (p.getD (12 + count) 0 : Int)
  let count := if p.getD (12 + count) 0 = 129 then count + 1 else count
  let maximum_power : Int :=
    if p.getD (13 + count) 0 = 129 then Int.xor (p.getD (13 + count + 1) 0 : Int) 85
    else (p.getD (13 + count) 0 : Int)
  let count := if p.getD (13 + count) 0 = 129 then count + 1 else count
  let phase_duration : Int :=
    if p.getD (15 + count) 0 = 129 then
      Int.xor (255 * (p.getD (14 + count) 0 : Int) + (p.getD (15 + count + 1) 0 : Int)) 85
    else 255 * (p.getD (14 + count) 0 : Int) + (p.getD (15 + count) 0 : Int)
  let count := if p.getD (15 + count) 0 = 129 then count + 1 else count
  let active_phase_duration : Int :=
    if p.getD (17 + count) 0 = 129 then
      Int.xor (255 * (p.getD (16 + count) 0 : Int) + (p.getD (17 + count + 1) 0 : Int)) 85
    else 255 * (p.getD (16 + count) 0 : Int) + (p.getD (17 + count) 0 : Int)
  let count := if p.getD (17 + count) 0 = 129 then count + 1 else count
  let phase_work : Int :=
    if p.getD (19 + count) 0 = 129 then
      Int.xor (255 * (p.getD (18 + count) 0 : Int) + (p.getD (19 + count + 1) 0 : Int)) 85
    else 255 * (p.getD (18 + count) 0 : Int) + (p.getD (19 + count) 0 : Int)
  let count := if p.getD (19 + count) 0 = 129 then count + 1 else count
  let success_value : Int :=
    if p.getD (20 + count) 0 = 129 then Int.xor (p.getD (20 + count + 1) 0 : Int) 85
    else (p.getD (20 + count) 0 : Int)
  let count := if p.getD (20 + count) 0 = 129 then count + 1 else count
  let symmetry : Int :=
    if p.getD (21 + count) 0 = 129 then Int.xor (signedInt (p.getD (21 + count) 0)) 85
    else signedInt (p.getD (21 + count) 0)
  let count := if p.getD (21 + count) 0 = 129 then count + 1 else count
  let average_muscle_tone : Int :=
    if p.getD (22 + count) 0 = 129 then Int.xor (p.getD (22 + count + 1) 0 : Int) 85
    else (p.getD (22 + count) 0 : Int)
  { phase_number := phase_number, passive_distance := passive_distance,
    active_distance := active_distance, average_power := average_power,
    maximum_power := maximum_power, phase_duration := phase_duration,
    active_phase_duration := active_phase_duration, phase_work := phase_work,
    success_value := success_value, symmetry := symmetry,
    average_muscle_tone := average_muscle_tone }

/-- The phase-result ring-buffer append (lines 637-642): bounded by
`max_phase_result = 1`, oldest column dropped when full. -/
def pushPhase (buf : List PhaseVec) (v : PhaseVec) : List PhaseVec :=
  if buf.length < 1 then buf ++ [v] else buf.drop 1 ++ [v]

/-- The claim's reading of the per-field stuffing rule for phase results, stated from the
claim's words for comparison with `phaseResultAck`: same peek offsets and running counter, but
every stuffed field's value comes from the byte *following* the marker - for a two-byte field
the XOR applies to the stuffed low byte only (`255 * msb + (following XOR 0x55)`), and for
symmetry the following byte is read signed and then XOR-ed. -/
def phaseResultSpecRule (p : Packet) : PhaseVec :=
  let phase_number : Int :=
    if p.getD 7 0 = 129 then Int.xor (p.getD 8 0 : Int) 85 else (p.getD 7 0 : Int)
  let count : Nat := if p.getD 7 0 = 129 then 1 else 0
  let passive_distance : Int :=
    if p.getD (9 + count) 0 = 129 then
      255 * (p.getD (8 + count) 0 : Int) + Int.xor (p.getD (9 + count + 1) 0 : Int) 85
    else 255 * (p.getD (8 + count) 0 : Int) + (p.getD (9 + count) 0 : Int)
  let count := if p.getD (9 + count) 0 = 129 then count + 1 else count
  let active_distance : Int :=
    if p.getD (11 + count) 0 = 129 then
      255 * (p.getD (10 + count) 0 : Int) + Int.xor (p.getD (11 + count + 1) 0 : Int) 85
    else 255 * (p.getD (10 + count) 0 : Int) + (p.getD (10 + count + 1) 0 : Int)
  let count := if p.getD (11 + count) 0 = 129 then count + 1 else count
  let average_power : Int :=
    if p.getD (12 + count) 0 = 129 then Int.xor (p.getD (12 + count + 1) 0 : Int) 85
    else (p.getD (12 + count) 0 : Int)
  let count := if p.getD (12 + count) 0 = 129 then count + 1 else count
  let maximum_power : Int :=
    if p.getD (13 + count) 0 = 129 then Int.xor (p.getD (13 + count + 1) 0 : Int) 85
    else (p.getD (13 + count) 0 : Int)
  let count := if p.getD (13 + count) 0 = 129 then count + 1 else count
  let phase_duration : Int :=
    if p.getD (15 + count) 0 = 129 then
      255 * (p.getD (14 + count) 0 : Int) + Int.xor (p.getD (15 + count + 1) 0 : Int) 85
    else 255 * (p.getD (14 + count) 0 : Int) + (p.getD (15 + count) 0 : Int)
  let count := if p.getD (15 + count) 0 = 129 then count + 1 else count
  let active_phase_duration : Int :=
    if p.getD (17 + count) 0 = 129 then
      255 * (p.getD (16 + count) 0 : Int) + Int.xor (p.getD (17 + count + 1) 0 : Int) 85
    else 255 * (p.getD (16 + count) 0 : Int) + (p.getD (17 + count) 0 : Int)
  let count := if p.getD (17 + count) 0 = 129 then count + 1 else count
  let phase_work : Int :=
    if p.getD (19 + count) 0 = 129 then
      255 * (p.getD (18 + count) 0 : Int) + Int.xor (p.getD (19 + count + 1) 0 : Int) 85
    else 255 * (p.getD (18 + count) 0 : Int) + (p.getD (19 + count) 0 : Int)
  let count := if p.getD (19 + count) 0 = 129 then count + 1 else count
  let success_value : Int :=
    if p.getD (20 + count) 0 = 129 then Int.xor (p.getD (20 + count + 1) 0 : Int) 85
    else (p.getD (20 + count) 0 : Int)
  let count := if p.getD (20 + count) 0 = 129 then count + 1 else count
  let symmetry : Int :=
    if p.getD (21 + count) 0 = 129 then Int.xor (signedInt (p.getD (21 + count + 1) 0)) 85
    else signedInt (p.getD (21 + count) 0)
  let count := if p.getD (21 + count) 0 = 129 then count + 1 else count
  let average_muscle_tone : Int :=
    if p.getD (22 + count) 0 = 129 then Int.xor (p.getD (22 + count + 1) 0 : Int) 85
    else (p.getD (22 + count) 0 : Int)
  { phase_number := phase_number, passive_distance := passive_distance,
    active_distance := active_distance, average_power := average_power,
    maximum_power := maximum_power, phase_duration := phase_duration,
    active_phase_duration := active_phase_duration, phase_work := phase_work,
    success_value := success_value, symmetry := symmetry,
    average_muscle_tone := average_muscle_tone }

/-! ### Session state (`RehastimGeneric.__init__`, lines 62-120) -/

/-- The `show_log` constructor argument: `False`, `True`, or the string `"Status"`. -/
inductive ShowLog
  | off
  | on
  | status
  deriving DecidableEq

/-- `show_log` used as a Python truth value (`if self.show_log:`): any value other than
`False` is truthy (`"Status"` is a nonempty string). -/
def showLogTruthy : ShowLog → Bool
  | ShowLog.off => false
  | _ => true

/-- The `device_type` session parameter (`Device` enumeration values). -/
inductive DeviceT
  | rehastim2
  | rehastimP24
  deriving DecidableEq

/-- The mutable attributes of `RehastimGeneric` that the modelled operations read or write.
`time_last_cmd` is a timestamp (Python float, modelled as a rational); `motomed_done`,
`event_ack` and `is_phase_result` are the `threading.Event` flags; `watchdog_started`
is `__watchdog_thread_started`. -/
structure RState where
  show_log : ShowLog
  device_type : DeviceT
  time_last_cmd : Rat
  packet_count : Nat
  reha_connected : Bool
  stimulation_active : Bool
  is_motomed_connected : Bool
  error_occured : Bool
  motomed_done : Bool
  event_ack : Bool
  is_phase_result : Bool
  watchdog_started : Bool
  last_ack : Option Packet
  last_init_ack : Option Packet
  motomed_values : List Sample
  last_phase_result : List PhaseVec
  command_send : List Packet
  ack_received : List Packet
  deriving DecidableEq

/-! ### `_get_last_ack` (lines 139-169) -/

/-- Outcome of `_get_last_ack`: an immediate `RuntimeError`, a busy-wait that has not yet been
released (the `while not self.last_ack: pass` spin, modelled as `blocked` when the awaited
attribute is still `None`), a returned acknowledgement together with the updated state, or the
delegation to the device-specific `_get_last_device_ack`. -/
inductive AckResult
  | err (msg : String)
  | blocked
  | got (s : RState) (p : Packet)
  | deviceDefer
  deriving DecidableEq

/-- `_get_last_ack(init)`: raises at once when the error latch is set; otherwise, with the
motomed connected, consumes `last_init_ack`/`last_ack`, appending it to `ack_received`. -/
def getLastAck (s : RState) (init : Bool) : AckResult :=
  if s.error_occured then AckResult.err "Stimulation error"
  else if s.is_motomed_connected then
    if init then
      match s.last_init_ack with
      | none => AckResult.blocked
      | some a =>
        AckResult.got { s with ack_received := s.ack_received ++ [a], last_init_ack := none } a
    else
      match s.last_ack with
      | none => AckResult.blocked
      | some a =>
        AckResult.got { s with ack_received := s.ack_received ++ [a], last_ack := none } a
  else AckResult.deviceDefer

/-! ### The reader loop's packet routing (`_thread_catch_ack`, lines 221-249) -/

/-- Applying `_actual_values_ack` to the state: decode and append to the bounded buffer. -/
def actualValuesUpdate (s : RState) (p : Packet) : RState :=
  { s with motomed_values := pushSample s.motomed_values (actualValuesAck p) }

/-- Applying `_phase_result_ack` to the state: decode, append to the bounded buffer
(`max_phase_result = 1`) and set the `is_phase_result` event. -/
def phaseResultUpdate (s : RState) (p : Packet) : RState :=
  { s with last_phase_result := pushPhase s.last_phase_result (phaseResultAck p),
           is_phase_result := true }

/-- Outcome of routing one packet inside the reader loop body: either the loop continues with
an updated state, or the thread function *returns* (the `return self._phase_result_ack(packet)`
statement on line 236), terminating the loop. -/
inductive RouteOutcome
  | cont (s : RState)
  | ret (s : RState) (msg : String)
  deriving DecidableEq

/-- Routing of a single decoded packet (lines 225-249).  The `show_log` block (lines 226-232)
only emits log lines and is modelled as a no-op on the state.  Branches in source order:
ActualValues, PhaseResult (which `return`s out of the thread function), the bare `packet[6] ==
90` pass, MotomedCommandDone, then any other known command identifier (id 1 deposits
`last_init_ack`, the rest deposit `last_ack`, both setting `event_ack`; the inner
`packet[6] == 90` re-slicing on line 246-247 is unreachable but kept). -/
def routeOne (s : RState) (p : Packet) : RouteOutcome :=
  if p.length > 7 then
    if cmdId p = cmdValue "ActualValues" then RouteOutcome.cont (actualValuesUpdate s p)
    else if cmdId p = cmdValue "PhaseResult" then
      RouteOutcome.ret (phaseResultUpdate s p) "PhaseResult"
    else if cmdId p = 90 then RouteOutcome.cont s
    else if cmdId p = cmdValue "MotomedCommandDone" then
      RouteOutcome.cont { s with motomed_done := true }
    else if isKnownCmd (cmdId p) then
      if cmdId p = 1 then
        RouteOutcome.cont { s with last_init_ack := some p, event_ack := true }
      else
        let p' := if cmdId p = 90 ∧ ¬(errCode p = -4 ∨ errCode p = -6) then p.drop 1 else p
        RouteOutcome.cont { s with last_ack := some p', event_ack := true }
    else RouteOutcome.cont s
  else RouteOutcome.cont s

/-- The `for packet in packets:` loop of the reader body: routing stops at the first packet
whose handler returns from the thread function. -/
def routePackets (s : RState) : List Packet → RouteOutcome
  | [] => RouteOutcome.cont s
  | p :: ps =>
    match routeOne s p with
    | RouteOutcome.cont s' => routePackets s' ps
    | RouteOutcome.ret s' m => RouteOutcome.ret s' m

/-- The routing part of one reader-loop iteration, including its guard
(`if self.is_motomed_connected:`, line 221). -/
def threadBodyRoute (s : RState) (ps : List Packet) : RouteOutcome :=
  if s.is_motomed_connected then routePackets s ps else RouteOutcome.cont s

/-- The reader loop's `while` condition (line 215):
`self.stimulation_active and self.device_type == Device.Rehastim2.value`. -/
def threadLoopCond (s : RState) : Bool :=
  s.stimulation_active && (s.device_type = DeviceT.rehastim2)

/-! ### Command/acknowledgement correlation (`_thread_catch_ack`, lines 251-286) -/

/-- Modelled from the spec: `init_stimulation_ack` lives in `pyScienceMode/acks.py`, not among
the provided sources.  Per the spec's ErrorClassifier, a handshake acknowledgement decodes to a
message that equals the expected success message exactly when the carried status code reports
success. -/
def initStimulationAck (p : Packet) : String :=
  if errCode p = 0 then "Stimulation initialized" else "Init error"

/-- Modelled from the spec: `stop_stimulation_ack` of `pyScienceMode/acks.py`, as above. -/
def stopStimulationAck (p : Packet) : String :=
  if errCode p = 0 then "Stimulation stopped" else "Stop error"

/-- Modelled from the spec: `start_stimulation_ack` of `pyScienceMode/acks.py`, as above. -/
def startStimulationAck (p : Packet) : String :=
  if errCode p = 0 then "Stimulation started" else "Start error"

/-- The per-packet checks of the inner `for packet in self.ack_received:` scan
(lines 265-284): the first failing handshake acknowledgement yields the raised message
(`get_mode_ack` is called but never checked in the source). -/
def handshakeFail (p : Packet) : Option String :=
  if cmdId p = cmdValue "InitChannelListModeAck" then
    if initStimulationAck p ≠ "Stimulation initialized" then some "Stimulation not initialized"
    else none
  else if cmdId p = cmdValue "StopChannelListModeAck" then
    if stopStimulationAck p ≠ "Stimulation stopped" then
      some ("Error : StoppedChannelListMode :" ++ stopStimulationAck p)
    else none
  else if cmdId p = cmdValue "StartChannelListModeAck" then
    if startStimulationAck p ≠ "Stimulation started" then
      some ("Error : StartChannelListMode :" ++ startStimulationAck p)
    else none
  else none

/-- The inner scan over `ack_received` inside the matched branch. -/
def handshakeScan (l : List Packet) : Option String :=
  l.findSome? handshakeFail

/-- One iteration of the correlation loop at index `i` (lines 253-286).  Faithful branch
order: a StimulationError acknowledgement at `i` (the fatal codes -1, -2, -3 latch the error
flag and raise), an ActualValues acknowledgement without the motomed flag (latches and raises),
then the positional match `command_send[i][6] + 1 == ack_received[i][6] and i > 0`, whose body
scans all of `ack_received` for failing handshake acknowledgements (latching and raising on
the first) and otherwise deletes index `i` from both lists. -/
def corrBody (s : RState) (i : Nat) : RState × Option String :=
  if cmdId (s.ack_received.getD i []) = cmdValue "StimulationError" then
    if errCode (s.ack_received.getD i []) = -1 ∨ errCode (s.ack_received.getD i []) = -2 ∨
        errCode (s.ack_received.getD i []) = -3 then
      ({ s with error_occured := true }, some "Stimulation error")
    else (s, none)
  else if cmdId (s.ack_received.getD i []) = cmdValue "ActualValues" ∧
      s.is_motomed_connected = false then
    ({ s with error_occured := true }, some "Motomed is connected, so put the flag with_motomed to True.")
  else if cmdId (s.command_send.getD i []) + 1 = cmdId (s.ack_received.getD i []) ∧ 0 < i then
    match handshakeScan s.ack_received with
    | some e => ({ s with error_occured := true }, some e)
    | none =>
      ({ s with command_send := s.command_send.eraseIdx i,
                ack_received := s.ack_received.eraseIdx i }, none)
  else (s, none)

/-- The `for i in reversed(range(min(len, len)))` loop, iterating the body from index `i`
down to 0, short-circuiting on a raise. -/
def corrLoop : RState → Nat → RState × Option String
  | s, 0 => corrBody s 0
  | s, Nat.succ i =>
    match corrBody s (Nat.succ i) with
    | (s', some e) => (s', some e)
    | (s', none) => corrLoop s' i

/-- The whole correlation pass (lines 251-286), including its entry guard
`if self.command_send and self.ack_received:`. -/
def corrPass (s : RState) : RState × Option String :=
  if s.command_send ≠ [] ∧ s.ack_received ≠ [] then
    corrLoop s (min s.command_send.length s.ack_received.length - 1)
  else (s, none)

/-! ### The send path: `send_generic_packet` (lines 336-371) -/

/-- Byte-stuffing of one payload byte, per the spec's wire framing: each of the five reserved
values is replaced by the stuffing marker followed by the byte xor the stuffing key. -/
def stuffByte (b : Nat) : List Nat :=
  if b ∈ STUFFED_BYTES then [STUFFING_BYTE, Nat.xor b STUFFING_KEY] else [b]

/-- Modelled from the spec: `packet_construction` lives in `pyScienceMode/utils.py`, not among
the provided sources.  Per the spec's wire framing, an outgoing packet is the start marker, the
1-byte packet sequence number (mod 256), the command identifier byte, the stuffed payload, and
the stop marker. -/
def packetConstruction (count : Nat) (cmd : String) (payload : List Nat) : Packet :=
  [START_BYTE, count % 256, cmdValue cmd] ++ payload.flatMap stuffByte ++ [STOP_BYTE]

/-- `_packet_watchdog` (lines 468-478): the heartbeat packet for the current sequence number. -/
def packetWatchdog (count : Nat) : Packet :=
  packetConstruction count "Watchdog" []

/-- Result of `send_generic_packet`: the updated state, the exact sequence of transport writes
performed inside the single `with self.lock:` region (in order), the exception if the
`Rehastim2Commands(packet[6])` lookup raised, and the Python return value. -/
structure SendResult where
  state : RState
  lockWrites : List Packet
  exn : Option String
  ret : Option String
  deriving DecidableEq

/-- `send_generic_packet(cmd, packet)` at wall-clock time `now` (lines 336-371), step for
step:  the `InitAck` prelude sets the `motomed_done` event and starts the watchdog
(`_start_watchdog` sets `reha_connected`); under a truthy `show_log` the command-name lookup
runs (raising `ValueError` on an unknown identifier) and, for identifiers other than
`Watchdog`, the packet is appended to `command_send`; inside the lock a heartbeat is written
first whenever more than 1 second elapsed since `time_last_cmd`, then the packet itself; after
the lock, `time_last_cmd` and the wrapped `packet_count` are updated. -/
def sendGenericPacket (s : RState) (cmd : String) (pkt : Packet) (now : Rat) : SendResult :=
  let s1 := if cmd = "InitAck" then
      { s with motomed_done := true, reha_connected := true, watchdog_started := true }
    else s
  if showLogTruthy s1.show_log ∧ cmdName (cmdId pkt) = none then
    { state := s1, lockWrites := [], exn := some "ValueError", ret := none }
  else
    let s2 := if showLogTruthy s1.show_log ∧ cmdName (cmdId pkt) ≠ some "Watchdog" then
        { s1 with command_send := s1.command_send ++ [pkt] }
      else s1
    let writes :=
      (if now - s2.time_last_cmd > 1 then [packetWatchdog s2.packet_count] else []) ++ [pkt]
    let s3 := if cmd = "InitAck" then { s2 with reha_connected := true } else s2
    let s4 := { s3 with time_last_cmd := now, packet_count := (s3.packet_count + 1) % 256 }
    { state := s4, lockWrites := writes, exn := none,
      ret := if cmd = "InitAck" then some "InitAck" else none }

/-! ### Teardown: `disconnect` (lines 435-466) -/

/-- The background threads that teardown can join. -/
inductive TJoin
  | watchdog
  | catchAck
  deriving DecidableEq

/-- `_stop_watchdog` (lines 461-466): clears `reha_connected`, then joins the watchdog
thread. -/
def stopWatchdog (s : RState) : RState × List TJoin :=
  ({ s with reha_connected := false }, [TJoin.watchdog])

/-- `_stop_thread_catch_ack` (lines 444-450): clears the motomed flag and `reha_connected`,
then joins the reader thread. -/
def stopThreadCatchAck (s : RState) : RState × List TJoin :=
  ({ s with is_motomed_connected := false, reha_connected := false }, [TJoin.catchAck])

/-- `disconnect` (lines 435-442): stop the watchdog, then - only if `reha_connected` is still
set - stop the reader thread, and finally clear `stimulation_active`.  The second component is
the ordered list of thread joins performed. -/
def disconnect (s : RState) : RState × List TJoin :=
  let r1 := stopWatchdog s
  let r2 := if r1.1.reha_connected then
      let r := stopThreadCatchAck r1.1
      (r.1, r1.2 ++ r.2)
    else r1
  ({ r2.1 with stimulation_active := false }, r2.2)

/-! ### Re-framing the raw byte stream: `_read_packet` (lines 403-433) -/

/-- The inner `while next_stop_byte < 8:` loop (lines 425-430): starting from the first
stop-byte index `ns`, advance to the next occurrence while the current one lies below offset 8.
`Sum.inl` is normal exit with the accepted index; `Sum.inr` is the `except:` path (no further
occurrence), carrying the stale index the loop last held. -/
def skipEarlyStop (ptmp : List Nat) (ns : Nat) : Sum Nat Nat :=
  if h : ns < 8 then
    match (ptmp.drop (ns + 1)).findIdx? (fun b => b = STOP_BYTE) with
    | some j => skipEarlyStop ptmp (ns + j + 1)
    | none => Sum.inr ns
  else Sum.inl ns
  termination_by 8 - ns
  decreasing_by omega

/-- The outer `while len(packet_tmp) != 0:` loop (lines 423-432), carrying the accumulated
`packet_list`.  Faithful quirks: when no stop byte exists at all, `.index` raises an uncaught
`ValueError`; on the inner loop's `except:` path the accumulated list is cleared, the loop is
left by `break`, and the following `append`/re-slice still run with the stale index. -/
def frameLoop (ptmp : List Nat) (acc : List (List Nat)) : Except String (List (List Nat)) :=
  if h : ptmp = [] then Except.ok acc
  else
    match ptmp.findIdx? (fun b => b = STOP_BYTE) with
    | none => Except.error "ValueError"
    | some ns =>
      match skipEarlyStop ptmp ns with
      | Sum.inl ns' => frameLoop (ptmp.drop (ns' + 1)) (acc ++ [ptmp.take (ns' + 1)])
      | Sum.inr nsf => frameLoop (ptmp.drop (nsf + 1)) [ptmp.take (nsf + 1)]
  termination_by ptmp.length
  decreasing_by
    all_goals
      have hpos : 0 < ptmp.length := List.length_pos.mpr h
      simp [List.length_drop]
      omega

/-- The framing part of `_read_packet` (lines 419-433) on the fully accumulated buffer: with
more than 8 bytes, discard everything before the first start marker and run the framing loop;
with 8 bytes or fewer the function falls through and returns Python `None`. -/
def readPacketFrames (packet : List Nat) : Except String (Option (List (List Nat))) :=
  if packet.length > 8 then
    match packet.findIdx? (fun b => b = START_BYTE) with
    | none => Except.error "ValueError"
    | some i => (frameLoop (packet.drop i) []).map (fun l => some l)
  else Except.ok none

/-! ### Concrete fixtures used by the claim theorems -/

/-- A minimal packet (length 8) carrying command identifier `v` and status byte 0. -/
def mkPkt (v : Nat) : Packet := [240, 0, 0, 0, 0, 0, v, 0]

/-- A StimulationError acknowledgement carrying the fatal signed status code -1 (byte 255). -/
def stimErrPkt : Packet := [240, 0, 0, 0, 0, 0, cmdValue "StimulationError", 255]

/-- A fresh session state: `show_log=False`, Rehastim2 device, nothing buffered. -/
def baseState : RState where
  show_log := ShowLog.off
  device_type := DeviceT.rehastim2
  time_last_cmd := 0
  packet_count := 0
  reha_connected := false
  stimulation_active := false
  is_motomed_connected := false
  error_occured := false
  motomed_done := false
  event_ack := false
  is_phase_result := false
  watchdog_started := false
  last_ack := none
  last_init_ack := none
  motomed_values := []
  last_phase_result := []
  command_send := []
  ack_received := []

/-- A phase-result packet family: every field unstuffed except possibly the symmetry byte
(`sym`, at index 21) with `next` (index 22) the byte following it; the other ten fields decode
to 1, 2, 3, 4, 5, 6, 7, 8, 9, and (when symmetry is stuffed, so offsets shift) muscle
tone 10. -/
def pkFam (sym next : Nat) : Packet :=
  [240, 0, 0, 0, 0, 0, cmdValue "PhaseResult",
   1, 0, 2, 0, 3, 4, 5, 0, 6, 0, 7, 0, 8, 9, sym, next, 10]

/-- Phase-result family with only phase_number stuffed (marker at index 7, following byte
`b`); the remaining fields decode to 2, 3, 4, 5, 6, 7, 8, 9, 7, 3. -/
def pk1 (b : Nat) : Packet :=
  [240, 0, 0, 0, 0, 0, cmdValue "PhaseResult",
   129, b, 0, 2, 0, 3, 4, 5, 0, 6, 0, 7, 0, 8, 9, 7, 3]

/-- Phase-result family with only passive_distance stuffed: MSB `m` at index 8, marker at the
low-byte offset 9, following byte `b`. -/
def pk2 (m b : Nat) : Packet :=
  [240, 0, 0, 0, 0, 0, cmdValue "PhaseResult",
   1, m, 129, b, 0, 3, 4, 5, 0, 6, 0, 7, 0, 8, 9, 7, 3]

/-- Phase-result family with only active_distance stuffed: MSB `m` at index 10, marker at
offset 11, following byte `b`. -/
def pk3 (m b : Nat) : Packet :=
  [240, 0, 0, 0, 0, 0, cmdValue "PhaseResult",
   1, 0, 2, m, 129, b, 4, 5, 0, 6, 0, 7, 0, 8, 9, 7, 3]

/-- Phase-result family with only average_power stuffed (marker at offset 12, following `b`). -/
def pk4 (b : Nat) : Packet :=
  [240, 0, 0, 0, 0, 0, cmdValue "PhaseResult",
   1, 0, 2, 0, 3, 129, b, 5, 0, 6, 0, 7, 0, 8, 9, 7, 3]

/-- Phase-result family with only maximum_power stuffed (marker at offset 13, following `b`). -/
def pk5 (b : Nat) : Packet :=
  [240, 0, 0, 0, 0, 0, cmdValue "PhaseResult",
   1, 0, 2, 0, 3, 4, 129, b, 0, 6, 0, 7, 0, 8, 9, 7, 3]

/-- Phase-result family with only phase_duration stuffed: MSB `m` at index 14, marker at
offset 15, following byte `b`. -/
def pk6 (m b : Nat) : Packet :=
  [240, 0, 0, 0, 0, 0, cmdValue "PhaseResult",
   1, 0, 2, 0, 3, 4, 5, m, 129, b, 0, 7, 0, 8, 9, 7, 3]

/-- Phase-result family with only active_phase_duration stuffed: MSB `m` at index 16, marker
at offset 17, following byte `b`. -/
def pk7 (m b : Nat) : Packet :=
  [240, 0, 0, 0, 0, 0, cmdValue "PhaseResult",
   1, 0, 2, 0, 3, 4, 5, 0, 6, m, 129, b, 0, 8, 9, 7, 3]

/-- Phase-result family with only phase_work stuffed: MSB `m` at index 18, marker at
offset 19, following byte `b`. -/
def pk8 (m b : Nat) : Packet :=
  [240, 0, 0, 0, 0, 0, cmdValue "PhaseResult",
   1, 0, 2, 0, 3, 4, 5, 0, 6, 0, 7, m, 129, b, 9, 7, 3]

/-- Phase-result family with only success_value stuffed (marker at offset 20, following `b`). -/
def pk9 (b : Nat) : Packet :=
  [240, 0, 0, 0, 0, 0, cmdValue "PhaseResult",
   1, 0, 2, 0, 3, 4, 5, 0, 6, 0, 7, 0, 8, 129, b, 7, 3]

/-- Phase-result family with only average_muscle_tone stuffed (marker at offset 22,
following `b`). -/
def pk11 (b : Nat) : Packet :=
  [240, 0, 0, 0, 0, 0, cmdValue "PhaseResult",
   1, 0, 2, 0, 3, 4, 5, 0, 6, 0, 7, 0, 8, 9, 7, 129, b]

/-- C2's scenario state: commands A,B,C (identifiers 100, 102, 104) sent, acknowledgements
arriving reordered as ack(B), ack(A), ack(C) (identifiers 103, 101, 105). -/
def c2state : RState :=
  { baseState with is_motomed_connected := true,
                   command_send := [mkPkt 100, mkPkt 102, mkPkt 104],
                   ack_received := [mkPkt 103, mkPkt 101, mkPkt 105] }

/-- The same three commands with acknowledgements arriving in send order. -/
def c2stateOrdered : RState :=
  { baseState with is_motomed_connected := true,
                   command_send := [mkPkt 100, mkPkt 102, mkPkt 104],
                   ack_received := [mkPkt 101, mkPkt 103, mkPkt 105] }

/-- A live reader-loop state: stimulation active, Rehastim2 device, motomed connected. -/
def c5state : RState :=
  { baseState with stimulation_active := true, is_motomed_connected := true }

/-- A fully connected session about to be torn down. -/
def c6state : RState :=
  { baseState with reha_connected := true, is_motomed_connected := true,
                   stimulation_active := true, watchdog_started := true }

/-- A session whose fatal error latch is set. -/
def latchedState : RState := { baseState with error_occured := true }

/-- A session with one pending command and a fatal StimulationError acknowledgement. -/
def c1state : RState :=
  { baseState with command_send := [mkPkt 100], ack_received := [stimErrPkt] }

/-- The spec's actual-values example packet: angle 120 (bytes 0,120), stuffed speed
(marker 129 then 75, and 75 xor 85 = 30), torque 5. -/
def avExample : Packet :=
  [240, 0, 0, 0, 0, 0, cmdValue "ActualValues", 0, 120, 0, 129, 75, 0, 5]

/-- Actual-values family with a stuffed angle low byte: MSB `m`, marker, following byte `n`. -/
def avStuffedAngle (m n : Nat) : Packet :=
  [240, 0, 0, 0, 0, 0, cmdValue "ActualValues", m, 129, n, 0, 0, 0, 0]

/-- Actual-values family with angle 120 and a stuffed speed whose following byte is `k`. -/
def avStuffedSpeed (k : Nat) : Packet :=
  [240, 0, 0, 0, 0, 0, cmdValue "ActualValues", 0, 120, 0, 129, k, 0, 5]

/-- A MotomedCommandDone packet. -/
def mdonePkt : Packet := mkPkt (cmdValue "MotomedCommandDone")

/-- `ack_received[j]` is a StimulationError acknowledgement with a fatal signed status code. -/
def fatalStimAt (s : RState) (j : Nat) : Prop :=
  cmdId (s.ack_received.getD j []) = cmdValue "StimulationError" ∧
  (errCode (s.ack_received.getD j []) = -1 ∨ errCode (s.ack_received.getD j []) = -2 ∨
   errCode (s.ack_received.getD j []) = -3)

/-! ### Helper lemmas -/

/-- Deleting at an index strictly above `j` does not change the element read at `j`. -/
theorem getD_eraseIdx_of_lt {α : Type} (d : α) :
    ∀ (l : List α) (i j : Nat), j < i → (l.eraseIdx i).getD j d = l.getD j d
  | [], _, _, _ => rfl
  | _ :: _, 0, j, h => absurd h (Nat.not_lt_zero j)
  | _ :: _, _ + 1, 0, _ => rfl
  | a :: l, i + 1, j + 1, h => by
    show (a :: l.eraseIdx i).getD (j + 1) d = (a :: l).getD (j + 1) d
    simp only [List.getD_cons_succ]
    exact getD_eraseIdx_of_lt d l i j (by omega)

/-- Every iteration of the correlation loop either raises with the error latch set, or
continues without raising, leaving the state unchanged or with index `i` deleted from both
correlation lists. -/
theorem corrBody_shape (s : RState) (i : Nat) :
    ((corrBody s i).1.error_occured = true ∧ ((corrBody s i).2).isSome = true)
    ∨ ((corrBody s i).2 = none ∧
        ((corrBody s i).1 = s ∨
         (corrBody s i).1 = { s with command_send := s.command_send.eraseIdx i,
                                     ack_received := s.ack_received.eraseIdx i })) := by
  unfold corrBody
  split_ifs
  · left; exact ⟨rfl, rfl⟩
  · right; exact ⟨rfl, Or.inl rfl⟩
  · left; exact ⟨rfl, rfl⟩
  · cases hsc : handshakeScan s.ack_received with
    | some e => left; simp [hsc]
    | none => right; simp [hsc]
  · right; exact ⟨rfl, Or.inl rfl⟩

/-- If a fatal StimulationError acknowledgement sits at some index `j ≤ i` of `ack_received`,
running the correlation loop from index `i` downward latches the error flag and raises. -/
theorem corrLoop_fatal :
    ∀ (i : Nat) (s : RState) (j : Nat), j ≤ i → fatalStimAt s j →
      (corrLoop s i).1.error_occured = true ∧ ((corrLoop s i).2).isSome = true := by
  have hbody : ∀ (s : RState) (i : Nat), fatalStimAt s i →
      corrBody s i = ({ s with error_occured := true }, some "Stimulation error") := by
    intro s i hf
    rcases hf with ⟨h1, h2⟩
    unfold corrBody
    rw [if_pos h1, if_pos h2]
  intro i
  induction i with
  | zero =>
    intro s j hj hf
    have hj0 : j = 0 := Nat.le_zero.mp hj
    subst hj0
    show (corrBody s 0).1.error_occured = true ∧ ((corrBody s 0).2).isSome = true
    rw [hbody s 0 hf]
    exact ⟨rfl, rfl⟩
  | succ i ih =>
    intro s j hj hf
    by_cases hji : j = i + 1
    · subst hji
      show ((match corrBody s (i + 1) with
             | (s', some e) => (s', some e)
             | (s', none) => corrLoop s' i).1.error_occured = true ∧
            ((match corrBody s (i + 1) with
              | (s', some e) => (s', some e)
              | (s', none) => corrLoop s' i).2).isSome = true)
      rw [hbody s (i + 1) hf]
      exact ⟨rfl, rfl⟩
    · have hj' : j ≤ i := by omega
      have hstep : (corrLoop s (i + 1)) =
          (match corrBody s (i + 1) with
           | (s', some e) => (s', some e)
           | (s', none) => corrLoop s' i) := rfl
      rcases hcb : corrBody s (i + 1) with ⟨s', oe⟩
      rcases corrBody_shape s (i + 1) with ⟨he, hsome⟩ | ⟨hnone, hor⟩
      · rw [hcb] at he hsome
        cases oe with
        | none => simp at hsome
        | some e =>
          rw [hstep, hcb]
          exact ⟨he, rfl⟩
      · rw [hcb] at hnone hor
        simp only at hnone
        subst hnone
        have hf' : fatalStimAt s' j := by
          rcases hf with ⟨h1, h2⟩
          rcases hor with h | h
          · simp only at h; rw [h]; exact ⟨h1, h2⟩
          · simp only at h
            rw [h]
            show cmdId ((s.ack_received.eraseIdx (i + 1)).getD j []) =
                cmdValue "StimulationError" ∧
              (errCode ((s.ack_received.eraseIdx (i + 1)).getD j []) = -1 ∨
               errCode ((s.ack_received.eraseIdx (i + 1)).getD j []) = -2 ∨
               errCode ((s.ack_received.eraseIdx (i + 1)).getD j []) = -3)
            rw [getD_eraseIdx_of_lt [] s.ack_received (i + 1) j (by omega)]
            exact ⟨h1, h2⟩
        rw [hstep, hcb]
        exact ih s' j hj' hf'

/-- Folding the `_actual_values_ack` append over any sample sequence starting from a buffer of
at most 100 entries keeps exactly the last 100 entries of buffer-then-sequence. -/
theorem foldl_pushSample_eq :
    ∀ (l : List Sample) (acc : List Sample), acc.length ≤ 100 →
      l.foldl pushSample acc = (acc ++ l).drop ((acc ++ l).length - 100)
  | [], acc, h => by
    simp [Nat.sub_eq_zero_of_le h]
  | s :: l, acc, h => by
    show l.foldl pushSample (pushSample acc s) =
      (acc ++ s :: l).drop ((acc ++ s :: l).length - 100)
    by_cases h1 : acc.length < 100
    · have hp : pushSample acc s = acc ++ [s] := by simp [pushSample, h1]
      rw [hp, foldl_pushSample_eq l (acc ++ [s]) (by simp; omega)]
      simp [List.append_assoc]
    · have h100 : acc.length = 100 := by omega
      have hp : pushSample acc s = acc.drop 1 ++ [s] := by simp [pushSample, h1]
      rw [hp, foldl_pushSample_eq l (acc.drop 1 ++ [s]) (by simp [h100])]
      have e1 : (acc.drop 1 ++ [s]) ++ l = (acc ++ s :: l).drop 1 := by
        rw [List.drop_append_of_le_length (by omega)]
        simp [List.append_assoc]
      rw [e1, List.drop_drop]
      congr 1
      simp [List.length_drop, h100]
      omega

/-- C7 (confirmed).  The actual-values sample buffer is a bounded FIFO ring: appending any
sequence of samples through `_actual_values_ack`'s buffer update (`pushSample`), starting from
the empty buffer, (a) never lets the size exceed 100 - the size is `min count 100`, so while at
most 100 samples were appended all are retained - and (b) leaves exactly the samples from the
`(count - 100)`-th insertion onward, in insertion order; in particular the oldest retained
sample is the `(count - 100)`-th inserted one. -/
theorem actual_values_ring_buffer_bound (l : List Sample) :
    (l.foldl pushSample []).length = min l.length 100 ∧
    l.foldl pushSample [] = l.drop (l.length - 100) := by
  have h := foldl_pushSample_eq l [] (by simp)
  simp only [List.nil_append] at h
  refine ⟨?_, h⟩
  rw [h]
  simp [List.length_drop]
  omega

/-- Whenever the command-name lookup cannot raise, `send_generic_packet` performs, inside its
single lock region, exactly the optional piggy-backed heartbeat followed by the requested
packet, raises nothing, and leaves the error latch untouched. -/
theorem sendGenericPacket_shape (s : RState) (cmd : String) (pkt : Packet) (now : Rat)
    (h : ¬(showLogTruthy s.show_log = true ∧ cmdName (cmdId pkt) = none)) :
    (sendGenericPacket s cmd pkt now).lockWrites =
      (if now - s.time_last_cmd > 1 then [packetWatchdog s.packet_count] else []) ++ [pkt] ∧
    (sendGenericPacket s cmd pkt now).exn = none ∧
    (sendGenericPacket s cmd pkt now).state.error_occured = s.error_occured := by
  by_cases hA : showLogTruthy s.show_log = true
  · by_cases hB : cmdName (cmdId pkt) = none
    · exact absurd ⟨hA, hB⟩ h
    · by_cases hW : cmdName (cmdId pkt) = some "Watchdog"
      · unfold sendGenericPacket
        split_ifs <;> simp_all
      · unfold sendGenericPacket
        split_ifs <;> simp_all
  · by_cases hW : cmdName (cmdId pkt) = some "Watchdog"
    · unfold sendGenericPacket
      split_ifs <;> simp_all
    · unfold sendGenericPacket
      split_ifs <;> simp_all

/-! ### Claim theorems -/

/-- C1 (counterexample).  With the error latch already set, issuing a command still attempts a
transport write: `send_generic_packet` never consults `error_occured`, so its lock region
performs a nonempty write sequence and leaves the latch set - refuting the claim that a
subsequent issue fails "without attempting a write to the transport". -/
theorem send_writes_despite_latch :
    latchedState.error_occured = true ∧
    (sendGenericPacket latchedState "Start" (mkPkt 32) 5).lockWrites ≠ [] ∧
    (sendGenericPacket latchedState "Start" (mkPkt 32) 5).state.error_occured = true := by
  have h := sendGenericPacket_shape latchedState "Start" (mkPkt 32) 5 (by decide)
  refine ⟨rfl, ?_, ?_⟩
  · rw [h.1]; simp
  · rw [h.2.2]; rfl

/-- C1 (amended).  Once the correlation pass observes a StimulationError acknowledgement with
signed status code in {-1,-2,-3} at any scanned index, the error latch `error_occured` is set
and the reader raises; with the latch set, every subsequent acknowledgement wait
(`_get_last_ack`, the failure point of an issue) fails immediately with the latched error -
but the send path still performs its transport write (it does not consult the latch), so the
failure happens at the wait step, not before the write. -/
theorem fatal_latch_amended (s : RState) (j : Nat)
    (hj : j < min s.command_send.length s.ack_received.length)
    (hf : fatalStimAt s j)
    (t : RState) (ht : t.error_occured = true) (init : Bool)
    (cmd : String) (pkt : Packet) (now : Rat)
    (hlog : ¬(showLogTruthy t.show_log = true ∧ cmdName (cmdId pkt) = none)) :
    (corrPass s).1.error_occured = true ∧ ((corrPass s).2).isSome = true ∧
    getLastAck t init = AckResult.err "Stimulation error" ∧
    (sendGenericPacket t cmd pkt now).lockWrites ≠ [] := by
  have hcs : s.command_send ≠ [] := List.ne_nil_of_length_pos (by omega)
  have har : s.ack_received ≠ [] := List.ne_nil_of_length_pos (by omega)
  have hloop := corrLoop_fatal (min s.command_send.length s.ack_received.length - 1) s j
    (by omega) hf
  have hpass : corrPass s = corrLoop s (min s.command_send.length s.ack_received.length - 1) := by
    unfold corrPass
    rw [if_pos ⟨hcs, har⟩]
  refine ⟨by rw [hpass]; exact hloop.1, by rw [hpass]; exact hloop.2, ?_, ?_⟩
  · unfold getLastAck
    rw [if_pos ht]
  · have h := sendGenericPacket_shape t cmd pkt now hlog
    rw [h.1]
    simp

/-- C1 (witness).  The amended theorem at a concrete fatal acknowledgement (StimulationError,
code -1) and a concrete latched state. -/
theorem fatal_latch_amended_witness :
    (corrPass c1state).1.error_occured = true ∧ ((corrPass c1state).2).isSome = true ∧
    getLastAck latchedState false = AckResult.err "Stimulation error" ∧
    (sendGenericPacket latchedState "Start" (mkPkt 32) 5).lockWrites ≠ [] :=
  fatal_latch_amended c1state 0 (by decide) ⟨by decide, by decide⟩ latchedState (by decide)
    false "Start" (mkPkt 32) 5 (by decide)

/-- C2 (counterexample).  With command_send = [A,B,C] (identifiers 100,102,104) and
ack_received arriving reordered as [ack(B),ack(A),ack(C)] (identifiers 103,101,105), the
correlation pass does not leave both lists empty: only the pair at position 2 is matched,
because the comparison is positional, refuting the claim's reordered-matching scenario. -/
theorem reordered_acks_not_emptied :
    (corrPass c2state).1.command_send ≠ [] ∧ (corrPass c2state).1.ack_received ≠ [] := by
  decide

/-- C2 (amended).  The correlation pass compares positionally: the command at position `i` is
matched exactly when the acknowledgement at the same position `i` carries identifier equal to
the sent identifier + 1 and `i > 0`, and the matched pair is deleted from both lists.  With
the reordered acknowledgements [ack(B),ack(A),ack(C)] only position 2 matches, leaving [A,B]
and [ack(B),ack(A)] (no error, no raise); with acknowledgements in send order the pairs at
positions 2 and 1 are matched, position 0 being excluded by `i > 0`, leaving [A] and
[ack(A)]. -/
theorem correlation_positional_matching :
    (corrPass c2state).1.command_send = [mkPkt 100, mkPkt 102] ∧
    (corrPass c2state).1.ack_received = [mkPkt 103, mkPkt 101] ∧
    (corrPass c2state).2 = none ∧ (corrPass c2state).1.error_occured = false ∧
    (corrPass c2stateOrdered).1.command_send = [mkPkt 100] ∧
    (corrPass c2stateOrdered).1.ack_received = [mkPkt 101] := by
  decide

/-- C3 (code bug).  Re-framing [240,1,2,3,4,5,6,7,15, 240,1,15]: the trailing fragment
[240,1,15] has its only stop byte at offset 2 (< 8) and no further stop byte, yet the
`except:` path emits it as a packet - using the early stop byte as terminator - and discards
the preceding well-formed packet.  The second conjunct shows the intended skip does work when
a later stop byte exists (a stop byte at offset 3 does not truncate the packet); the third
shows a trailing fragment with no stop byte at all makes `_read_packet` raise an uncaught
ValueError instead of retaining the fragment. -/
theorem framing_emits_malformed_fragment :
    readPacketFrames [240, 1, 2, 3, 4, 5, 6, 7, 15, 240, 1, 15] =
      Except.ok (some [[240, 1, 15]]) ∧
    readPacketFrames [240, 1, 2, 15, 4, 5, 6, 7, 8, 9, 15] =
      Except.ok (some [[240, 1, 2, 15, 4, 5, 6, 7, 8, 9, 15]]) ∧
    readPacketFrames [240, 1, 2, 3, 4, 5, 6, 7, 15, 240, 1, 2] =
      Except.error "ValueError" := by
  refine ⟨?_, ?_, ?_⟩ <;>
    simp [readPacketFrames, frameLoop, skipEarlyStop, STOP_BYTE, START_BYTE, List.findIdx?,
      Except.map]

/-- C4 (counterexample).  For a stuffed angle low byte with MSB 1 and following byte 0, the
code computes `(255 * 1 + 0) xor 85 = 170` (Python precedence xors the whole sum), while the
claim's per-field rule "the field value is the following byte XOR 0x55" gives
`255 * 1 + (0 xor 85) = 340`: the two decoders disagree on this packet. -/
theorem actual_values_angle_stuffing_counterexample :
    (actualValuesAck (avStuffedAngle 1 0)).angle = 170 ∧
    (actualValuesSpecRule (avStuffedAngle 1 0)).angle = 340 ∧
    actualValuesAck (avStuffedAngle 1 0) ≠ actualValuesSpecRule (avStuffedAngle 1 0) := by
  decide

/-- C4 (amended).  Actual-values decoding peeks each field's expected offset for the stuffing
marker and shifts subsequent offsets through the running counter, and the spec's concrete
example decodes exactly to {angle 120, speed 30, torque 5}; but for the 16-bit angle the
stuffed branch xors the entire `255 * msb + following` sum with 0x55 (source operator
precedence), and the stuffed speed (likewise torque) xors the *signed* reading of the
following byte. -/
theorem actual_values_decode_amended (m n k : Nat) :
    actualValuesAck avExample = { angle := 120, speed := 30, torque := 5 } ∧
    (actualValuesAck (avStuffedAngle m n)).angle = Int.xor (255 * signedInt m + n) 85 ∧
    (actualValuesAck (avStuffedSpeed k)).speed = Int.xor (signedInt k) 85 ∧
    (actualValuesAck (avStuffedSpeed k)).torque = 5 := by
  refine ⟨by decide, ?_, ?_, ?_⟩ <;>
    simp [actualValuesAck, avStuffedAngle, avStuffedSpeed, List.getD, STUFFING_KEY, signedInt]

/-- C5 (code bug).  With the session connected (loop condition true) the reader's routing of a
phase-result packet *returns* from the thread function: routing [phase-result, motomed-done]
ends in `RouteOutcome.ret` after the first packet, the second packet is never processed
(`motomed_done` stays false), and the loop condition is still true at exit - the loop did not
run until disconnection. -/
theorem reader_loop_exits_on_phase_result :
    threadLoopCond c5state = true ∧
    threadBodyRoute c5state [pkFam 7 0, mdonePkt] =
      RouteOutcome.ret (phaseResultUpdate c5state (pkFam 7 0)) "PhaseResult" ∧
    (phaseResultUpdate c5state (pkFam 7 0)).motomed_done = false ∧
    threadLoopCond (phaseResultUpdate c5state (pkFam 7 0)) = true := by
  decide

/-- C6 (code bug).  For every session state, `disconnect` joins only the watchdog thread:
`_stop_watchdog` clears `reha_connected` before the `if self.reha_connected:` guard is read,
so `_stop_thread_catch_ack` is unreachable - the reader thread is never joined and the
accessory-connected (motomed) flag is never cleared; only `stimulation_active` is reset. -/
theorem disconnect_skips_reader_teardown (s : RState) :
    (disconnect s).2 = [TJoin.watchdog] ∧
    (disconnect s).1.is_motomed_connected = s.is_motomed_connected ∧
    (disconnect s).1.stimulation_active = false := by
  simp [disconnect, stopWatchdog, stopThreadCatchAck]

/-- C8 (counterexample).  The code's phase-result decoder disagrees with the claim's per-field
rule on two field kinds.  Symmetry: with the marker at the symmetry offset followed by byte 0,
the code yields `signed_int(0x81) xor 0x55 = -44` (the marker byte itself), the claim's rule -
signed following byte xor 0x55 - yields 85.  Two-byte fields: with passive_distance MSB 1,
marker, following byte 0, the code yields `(255*1 + 0) xor 0x55 = 170` (Python precedence xors
the whole sum), the claim's rule - following byte xor 0x55 in place of the low byte - yields
`255*1 + (0 xor 0x55) = 340`. -/
theorem phase_result_stuffing_counterexample :
    (phaseResultAck (pkFam 129 0)).symmetry = -44 ∧
    (phaseResultSpecRule (pkFam 129 0)).symmetry = 85 ∧
    (phaseResultAck (pkFam 129 0)).symmetry ≠ (phaseResultSpecRule (pkFam 129 0)).symmetry ∧
    (phaseResultAck (pk2 1 0)).passive_distance = 170 ∧
    (phaseResultSpecRule (pk2 1 0)).passive_distance = 340 ∧
    (phaseResultAck (pk2 1 0)).passive_distance ≠
      (phaseResultSpecRule (pk2 1 0)).passive_distance := by
  decide

/-- C8 (amended).  Phase-result decoding peeks the byte at each field's expected offset for
the stuffing marker and every stuffed field shifts all subsequent offsets by one via the
running counter (each family below also decodes the field *after* the stuffed one correctly).
The stuffed value rule differs by field kind: each of the five single-byte unsigned fields
(phase_number, average_power, maximum_power, success_value, average_muscle_tone) decodes to
the following byte XOR 0x55; each of the five two-byte fields (passive_distance,
active_distance, phase_duration, active_phase_duration, phase_work) decodes to the *whole sum*
`255 * msb + following` XOR-ed with 0x55 (source operator precedence); the stuffed symmetry
field decodes to the signed marker byte itself XOR 0x55 = -44 regardless of the following
byte.  Unstuffed fields take the raw byte(s), symmetry read signed (byte 200 decodes to -56),
the rest unsigned. -/
theorem phase_result_decode_amended (b m : Nat) :
    (phaseResultAck (pk1 b)).phase_number = Int.xor (b : Int) 85 ∧
    (phaseResultAck (pk1 b)).passive_distance = 2 ∧
    (phaseResultAck (pk2 m b)).passive_distance = Int.xor (255 * (m : Int) + (b : Int)) 85 ∧
    (phaseResultAck (pk2 m b)).active_distance = 3 ∧
    (phaseResultAck (pk3 m b)).active_distance = Int.xor (255 * (m : Int) + (b : Int)) 85 ∧
    (phaseResultAck (pk3 m b)).average_power = 4 ∧
    (phaseResultAck (pk4 b)).average_power = Int.xor (b : Int) 85 ∧
    (phaseResultAck (pk4 b)).maximum_power = 5 ∧
    (phaseResultAck (pk5 b)).maximum_power = Int.xor (b : Int) 85 ∧
    (phaseResultAck (pk5 b)).phase_duration = 6 ∧
    (phaseResultAck (pk6 m b)).phase_duration = Int.xor (255 * (m : Int) + (b : Int)) 85 ∧
    (phaseResultAck (pk6 m b)).active_phase_duration = 7 ∧
    (phaseResultAck (pk7 m b)).active_phase_duration =
      Int.xor (255 * (m : Int) + (b : Int)) 85 ∧
    (phaseResultAck (pk7 m b)).phase_work = 8 ∧
    (phaseResultAck (pk8 m b)).phase_work = Int.xor (255 * (m : Int) + (b : Int)) 85 ∧
    (phaseResultAck (pk8 m b)).success_value = 9 ∧
    (phaseResultAck (pk9 b)).success_value = Int.xor (b : Int) 85 ∧
    (phaseResultAck (pk9 b)).symmetry = 7 ∧
    (phaseResultAck (pkFam 129 b)).symmetry = -44 ∧
    (phaseResultAck (pkFam 129 b)).average_muscle_tone = 10 ∧
    (phaseResultAck (pk11 b)).average_muscle_tone = Int.xor (b : Int) 85 ∧
    (phaseResultAck (pk11 b)).symmetry = 7 ∧
    (phaseResultAck (pkFam 200 3)).symmetry = -56 ∧
    phaseResultAck (pkFam 7 3) =
      { phase_number := 1, passive_distance := 2, active_distance := 3, average_power := 4,
        maximum_power := 5, phase_duration := 6, active_phase_duration := 7, phase_work := 8,
        success_value := 9, symmetry := 7, average_muscle_tone := 3 } := by
  refine ⟨?_, ?_, ?_, ?_, ?_, ?_, ?_, ?_, ?_, ?_, ?_, ?_, ?_, ?_, ?_, ?_, ?_, ?_, ?_, ?_,
    ?_, ?_, ?_, ?_⟩ <;>
    first
    | decide
    | (simp [phaseResultAck, pk1, pk2, pk3, pk4, pk5, pk6, pk7, pk8, pk9, pk11, pkFam,
        List.getD, signedInt]
       try decide)

/-- C9 (confirmed).  Whenever a command is sent more than 1 second after the previous one
(and the logging name-lookup cannot raise), the lock region of `send_generic_packet` writes
exactly the watchdog heartbeat immediately followed by the requested packet - both under the
same single acquisition of the write lock, with nothing in between. -/
theorem send_piggyback_heartbeat_under_lock (s : RState) (cmd : String) (pkt : Packet)
    (now : Rat) (h1 : now - s.time_last_cmd > 1)
    (h2 : ¬(showLogTruthy s.show_log = true ∧ cmdName (cmdId pkt) = none)) :
    (sendGenericPacket s cmd pkt now).lockWrites = [packetWatchdog s.packet_count, pkt] := by
  have h := sendGenericPacket_shape s cmd pkt now h2
  rw [h.1, if_pos h1]
  rfl

/-- C9 (witness).  The heartbeat piggyback at a concrete state: last command at time 0, new
command at time 5. -/
theorem send_piggyback_heartbeat_under_lock_witness :
    (sendGenericPacket baseState "Start" (mkPkt 32) 5).lockWrites =
      [packetWatchdog 0, mkPkt 32] :=
  send_piggyback_heartbeat_under_lock baseState "Start" (mkPkt 32) 5
    (by norm_num [baseState]) (by decide)

/-- C10 (confirmed).  `send_generic_packet` appends the outgoing packet to the `command_send`
correlation list exactly when `show_log` is truthy, the command identifier is a known
`Rehastim2Commands` value (otherwise the lookup raises before appending), and that identifier
is not Watchdog; in particular, with `show_log` false the list is always left unchanged. -/
theorem command_send_append_condition (s : RState) (cmd : String) (pkt : Packet) (now : Rat) :
    (sendGenericPacket s cmd pkt now).state.command_send =
      if showLogTruthy s.show_log = true ∧ (cmdName (cmdId pkt)).isSome = true ∧
          cmdName (cmdId pkt) ≠ some "Watchdog"
      then s.command_send ++ [pkt] else s.command_send := by
  by_cases hA : showLogTruthy s.show_log = true
  · by_cases hB : cmdName (cmdId pkt) = none
    · unfold sendGenericPacket
      split_ifs <;> simp_all
    · by_cases hW : cmdName (cmdId pkt) = some "Watchdog"
      · unfold sendGenericPacket
        split_ifs <;> simp_all
      · unfold sendGenericPacket
        split_ifs <;> simp_all
  · unfold sendGenericPacket
    split_ifs <;> simp_all

end PySciMode
